import Mathlib

/-
Verification of the vcd crawl-and-download engine against its
natural-language specification.

The definitions below are a shallow embedding of the Python sources:
  * vcd/links.py   — BaseLink.save_response_content, BaseLink.autoset_filepath,
                     BaseLink._get_ext_from_response, Resource.download,
                     Forum.download, Delivery.download
  * vcd/_threading.py — run (the worker dispatch boundary)
  * vcd/utils.py   — secure_filename

Strings are modelled as ASCII (unicode NFKD normalisation and unidecode are
the identity on ASCII input).  Stateful methods become explicit
state-passing functions; exceptions become Except values; the filesystem,
the downloads log and the dedup cache become association lists inside an
explicit state record.
-/

namespace VCD

/-! ### Generic string helpers (Python `in`, `os.path` operations) -/

/-- `matchHere pat cs` is true when `pat` occurs at the very start of `cs`. -/
def matchHere : List Char → List Char → Bool
  | [], _ => true
  | _ :: _, [] => false
  | p :: ps, c :: cs => p == c && matchHere ps cs

def hasSubAux (pat : List Char) : List Char → Bool
  | [] => matchHere pat []
  | c :: cs => matchHere pat (c :: cs) || hasSubAux pat cs

/-- Python's substring test `pat in s`. -/
def hasSub (s pat : String) : Bool :=
  hasSubAux pat.toList s.toList

/-- Split a character list on a separator character, keeping empty pieces,
like Python `str.split(sep)` with a one-character separator. -/
def splitOnChar (sep : Char) : List Char → List (List Char)
  | [] => [[]]
  | c :: cs =>
    let r := splitOnChar sep cs
    if c == sep then [] :: r
    else
      match r with
      | [] => [[c]]
      | h :: t => (c :: h) :: t

/-- Python's `os.path.basename` for forward-slash paths, which for the URLs
and paths involved equals `p.split('/')[-1]`. -/
def pyBasename (p : String) : String :=
  String.mk ((splitOnChar '/' p.toList).getLastD [])

/-- Index of the last occurrence of `'.'` in a character list. -/
def lastDotIdx (cs : List Char) : Option Nat :=
  match cs.reverse.findIdx? (· == '.') with
  | none => none
  | some j => some (cs.length - 1 - j)

/-- The base part of Python's `os.path.splitext`: everything before the last
dot, where leading dots of the name never start an extension
(`splitext(".bashrc") = (".bashrc", "")`). -/
def splitextBase (s : String) : String :=
  let cs := s.toList
  let k := (cs.takeWhile (· == '.')).length
  match lastDotIdx (cs.drop k) with
  | none => s
  | some m => String.mk (cs.take (k + m))

/-- Replace-or-append update of an association list, modelling Python dict
assignment `d[k] = v`. -/
def setAL {α : Type} (l : List (String × α)) (k : String) (v : α) :
    List (String × α) :=
  match l with
  | [] => [(k, v)]
  | (k0, v0) :: rest => if k0 = k then (k, v) :: rest else (k0, v0) :: setAL rest k v

/-! ### HTTP responses

`cdFilename` is the filename extracted from the `Content-Disposition` header
by `Options.FILENAME_PATTERN`.  Modelled from the spec: the `options` module
is not under src; the spec says extensions are "derived from a
`Content-Disposition`-style header when present", so the model carries the
extracted filename directly, `none` meaning the header is absent (the
`KeyError` branch of `BaseLink.content_disposition`). -/

structure Response where
  status : Nat
  /-- parsed `Content-Length` header, `none` when absent (`KeyError`). -/
  contentLength : Option Nat
  /-- response body bytes. -/
  content : List Nat
  /-- `Content-Type` header, `none` when absent (the `content_type` property
  then returns Python `None`). -/
  contentType : Option String
  /-- `Location` header, `none` when absent. -/
  location : Option String
  /-- filename extracted from `Content-Disposition`, `none` when the header is
  absent. -/
  cdFilename : Option String
deriving DecidableEq

/-- `BaseLink.get_header_length`: the `Content-Length` header when present,
else the byte count of the body (links.py lines 199-203). -/
def get_header_length (r : Response) : Nat :=
  (r.contentLength).getD r.content.length

/-! ### Dedup cache and `save_response_content`

Modelled from the spec: `REAL_FILE_CACHE` (the `filecache` module is not
under src) is the Dedup Cache, "a mapping from absolute destination path to
last observed content length"; the model uses an association list with
Python-dict membership, lookup and assignment. -/

structure DedupState where
  /-- `REAL_FILE_CACHE`: destination path ↦ last observed length. -/
  cache : List (String × Nat)
  /-- the filesystem: path ↦ bytes written. -/
  fs : List (String × List Nat)
  /-- `downloads.log` records: (subject name, file basename), append-only. -/
  downloads : List (String × String)
deriving DecidableEq

inductive SaveReport
  /-- cache hit with equal length: logged as unchanged, early return. -/
  | unchanged
  /-- cache hit with different length: `Results.print_updated`. -/
  | updated
  /-- path not in cache: `Results.print_new`. -/
  | newFile
deriving DecidableEq

/-- `BaseLink.save_response_content` (links.py lines 212-247), with
`filepath` already resolved to `fp`.  `writeOk = false` models the write
raising `PermissionError`, which the source catches and logs as a warning.
Note the source's asymmetry: the cache is compared against
`get_header_length()` but assigned `len(response.content)`, and it is
assigned only in the not-in-cache branch, before the write is attempted. -/
def save_response_content (fp subjName : String) (r : Response)
    (writeOk : Bool) (s : DedupState) : DedupState × SaveReport :=
  match s.cache.lookup fp with
  | some len =>
    if len = get_header_length r then
      (s, .unchanged)
    else
      -- source: Results.print_updated; the cache entry is NOT reassigned here
      if writeOk then
        ({ s with fs := setAL s.fs fp r.content,
                  downloads := s.downloads ++ [(subjName, pyBasename fp)] },
         .updated)
      else
        (s, .updated)
  | none =>
    -- source: REAL_FILE_CACHE[filepath] = len(response.content); print_new
    let s1 : DedupState := { s with cache := setAL s.cache fp r.content.length }
    if writeOk then
      ({ s1 with fs := setAL s1.fs fp r.content,
                 downloads := s1.downloads ++ [(subjName, pyBasename fp)] },
       .newFile)
    else
      (s1, .newFile)

/-! ### Filename and extension derivation -/

/-- Python `str.lower` on ASCII, via the character list. -/
def lowerStr (s : String) : String :=
  String.mk (s.toList.map Char.toLower)

/-- `BaseLink._filename_to_ext` (links.py lines 109-113): `"ukn"` when the
name has no dot, else the lowercased part after the last dot. -/
def filename_to_ext (filename : String) : String :=
  if filename.toList.count '.' = 0 then "ukn"
  else lowerStr (String.mk ((splitOnChar '.' filename.toList).getLastD []))

/-- `BaseLink._get_ext_from_response` (links.py lines 115-135): when the
`Content-Disposition` filename is available use it; on `KeyError` (header
absent) fall back to the URL's basename, with `or 'ukn'` covering a falsy
(empty) extension. -/
def get_ext_from_response (r : Response) (url : String) : String :=
  match r.cdFilename with
  | some n => filename_to_ext n
  | none =>
    let e := filename_to_ext (pyBasename url)
    if e = "" then "ukn" else e

/-- `BaseLink._process_filename` (links.py lines 92-106). -/
def process_filename (filepath : String) : String :=
  (filepath.replace ">" " mayor que ").replace "<" " menor que "

/-- Characters kept by the `secure_filename` strip regex `[^A-Za-z0-9_.-]`. -/
def allowedChar (c : Char) : Bool :=
  (('A' ≤ c && c ≤ 'Z') || ('a' ≤ c && c ≤ 'z') || ('0' ≤ c && c ≤ '9')
    || c == '_' || c == '.' || c == '-')

/-- `secure_filename` (utils.py lines 50-69) on ASCII input: path separators
become spaces, whitespace-separated words are joined with `_`, disallowed
characters are dropped, and leading/trailing `.`/`_` are stripped (POSIX:
no Windows device-file branch). -/
def secure_filename (filename : String) : String :=
  let f := filename.map (fun c => if c == '/' then ' ' else c)
  let words := (f.split (fun c => c == ' ' || c == '\t' || c == '\n')).filter
    (fun w => w ≠ "")
  let joined := "_".intercalate words
  let kept := String.mk (joined.toList.filter allowedChar)
  let stripped := (kept.toList.dropWhile (fun c => c == '.' || c == '_')).reverse
  String.mk ((stripped.dropWhile (fun c => c == '.' || c == '_')).reverse)

/-! ### Path helpers (`os.path.join`, `os.path.normpath`, Alias) -/

/-- Python `os.path.join` for two components (POSIX). -/
def joinP (a b : String) : String :=
  if b.startsWith "/" then b
  else if a = "" || a.endsWith "/" then a ++ b
  else a ++ "/" ++ b

/-- Fold of `os.path.join` over a component list. -/
def joinAll (parts : List String) : String :=
  match parts with
  | [] => ""
  | p :: rest => rest.foldl joinP p

/-- POSIX `os.path.normpath`: drop empty and `.` components and resolve
`..` where possible. -/
def normpath (p : String) : String :=
  if p = "" then "." else
  let isAbs := p.startsWith "/"
  let comps := (p.splitOn "/").filter (fun c => c ≠ "" && c ≠ ".")
  let comps := comps.foldl (fun acc c =>
    if c = ".." then
      if isAbs then acc.dropLast
      else
        match acc.getLast? with
        | some l => if l = ".." then acc ++ [c] else acc.dropLast
        | none => acc ++ [c]
    else acc ++ [c]) ([] : List String)
  let body := "/".intercalate comps
  if isAbs then "/" ++ body else if body = "" then "." else body

/-- Modelled from the spec: `Alias.real_to_alias` (the `alias` module is not
under src).  The spec says `resolve(real_path, url)` returns `real_path`
unchanged when it is within filesystem limits, else a stable alias derived
from a hash of the URL; the model takes the URL-derived key directly. -/
def real_to_alias (maxLen : Nat) (urlKey realPath : String) : String :=
  if realPath.length ≤ maxLen then realPath else urlKey

/-! ### Link state and `autoset_filepath` -/

structure LinkState where
  name : String
  url : String
  /-- `subject.folder`. -/
  subjectFolder : String
  subfolders : List String
  filepath : Option String
  response : Option Response
deriving DecidableEq

/-- `BaseLink.autoset_filepath` (links.py lines 167-192): a no-op when
`filepath` is already set; `RuntimeError` when no request has been made yet;
otherwise build the sanitized path under the subject folder and root, pass
it through the alias layer and store it.  `root` stands for
`Options.ROOT_FOLDER` and `maxLen` for the alias layer's path limit. -/
def autoset_filepath (root : String) (maxLen : Nat) (s : LinkState) :
    Except String LinkState :=
  match s.filepath with
  | some _ => .ok s
  | none =>
    match s.response with
    | none => .error "Request not launched"
    | some r =>
      let filename := process_filename s.name ++ "." ++ get_ext_from_response r s.url
      let filename := secure_filename filename
      let filename := if s.subfolders = [] then filename
                      else joinAll (s.subfolders ++ [filename])
      let fp := joinP s.subjectFolder filename
      let fp := normpath (joinP root fp)
      let fp := real_to_alias maxLen s.url fp
      .ok { s with filepath := some fp }

/-! ### Resource.download dispatch -/

inductive RAction
  /-- status 404: log error and return (drop). -/
  | drop404
  /-- a recognized fixed content type: `set_resource_type` then save. -/
  | save (rtype : String)
  /-- content type `text/html`: routed to `parse_html`. -/
  | parseHtml
  /-- `status_code % 300 < 100`: set url to the `Location` header and call
  `download()` again. -/
  | redirect (location : Option String)
  /-- `content_type` is `None` and a substring test `x in None` raises
  `TypeError`. -/
  | typeErrorRaised
  /-- fall-through: "Content not identified", return (drop). -/
  | unidentified
deriving DecidableEq

/-- One dispatch step of `Resource.download` (links.py lines 269-361),
describing which branch the method takes for a given response.  The
content-type tests appear in source order; the redirect test comes after
all of them, exactly as in the source. -/
def resourceAction (r : Response) : RAction :=
  if r.status = 404 then .drop404 else
  match r.contentType with
  | none => .typeErrorRaised
  | some ct =>
    if hasSub ct "application/pdf" then .save "pdf"
    else if hasSub ct "officedocument.wordprocessingml.document" then .save "word"
    else if hasSub ct "officedocument.spreadsheetml.sheet" then .save "excel"
    else if hasSub ct "officedocument.presentationml.slideshow" then .save "power-point"
    else if hasSub ct "presentationml.presentation" then .save "power-point"
    else if hasSub ct "powerpoint" then .save "power-point"
    else if hasSub ct "msword" then .save "word"
    else if hasSub ct "application/zip" then .save "zip"
    else if hasSub ct "application/g-zip" then .save "gzip"
    else if hasSub ct "application/x-7z-compressed" then .save "7zip"
    else if hasSub ct "x-rar-compressed" then .save "rar"
    else if hasSub ct "text/plain" then .save "plain"
    else if hasSub ct "application/json" then .save "json"
    else if hasSub ct "application/octet-stream" then .save "octect-stream"
    else if hasSub ct "image/jpeg" then .save "jpeg"
    else if hasSub ct "image/png" then .save "png"
    else if hasSub ct "video/mp4" then .save "mp4"
    else if hasSub ct "video/x-ms-wm" then .save "avi"
    else if hasSub ct "text/html" then .parseHtml
    else if r.status % 300 < 100 then .redirect r.location
    else .unidentified

/-- The content-type substrings tested by `Resource.download`, in source
order (including the `text/html` routing test). -/
def ctPatterns : List String :=
  ["application/pdf", "officedocument.wordprocessingml.document",
   "officedocument.spreadsheetml.sheet",
   "officedocument.presentationml.slideshow", "presentationml.presentation",
   "powerpoint", "msword", "application/zip", "application/g-zip",
   "application/x-7z-compressed", "x-rar-compressed", "text/plain",
   "application/json", "application/octet-stream", "image/jpeg", "image/png",
   "video/mp4", "video/x-ms-wm", "text/html"]

/-! ### Forum.download -/

/-- One `div.attachments` container; `href` is `none` when the container
has no anchor (`attachment.a['href']` then raises `TypeError`, which the
source catches and skips). -/
structure ForumAttachment where
  text : String
  href : Option String
deriving DecidableEq

/-- One `img` tag inside a `div.attachedimages` container: `image['href']`
is tried first, `KeyError` falls back to `image['src']`. -/
structure ForumImage where
  href : Option String
  src : String
deriving DecidableEq

/-- The parts of a forum page that `Forum.download` queries with
BeautifulSoup: `td.topic.starter` cells (text, anchor href), the
`div.attachments` containers and the `img` tags of each
`div.attachedimages` container. -/
structure ForumPage where
  topics : List (String × String)
  attachments : List ForumAttachment
  imageContainers : List (List ForumImage)
deriving DecidableEq

inductive ForumChild
  /-- a child `Forum(theme.text, theme.a['href'], ...)` put on the queue. -/
  | forumChild (name url : String)
  /-- a child `Resource(name, url, ...)` put on the queue. -/
  | resourceChild (name url : String)
deriving DecidableEq

/-- the URL of an inline image: `image['href']`, else `image['src']`. -/
def imageUrl (im : ForumImage) : String :=
  (im.href).getD im.src

/-- `Forum.download` (links.py lines 441-499): branch on the URL shape and
return the children enqueued, or the `RuntimeError` message for an unknown
shape.  Subfolder bookkeeping (lines 447-449) does not affect which branch
runs or what is enqueued and is omitted. -/
def forumDownload (url : String) (page : ForumPage) :
    Except String (List ForumChild) :=
  if hasSub url "view.php" then
    .ok (page.topics.map (fun t => .forumChild t.1 t.2))
  else if hasSub url "discuss.php" then
    .ok ((page.attachments.filterMap (fun a =>
            (a.href).map (fun h => ForumChild.resourceChild (splitextBase a.text) h)))
      ++ (page.imageContainers.map (fun cont => cont.map (fun im =>
            ForumChild.resourceChild
              (splitextBase (pyBasename (imageUrl im)))
              (imageUrl im)))).flatten)
  else
    .error ("Unknown url for forum: " ++ url)

/-! ### Delivery.download duplicate-name disambiguation -/

/-- The duplicated names: Python `{x for x in names if names.count(x) > 1}`,
as a list used only for membership. -/
def dupesOf (ns : List String) : List String :=
  ns.filter (fun x => decide (1 < ns.count x))

/-- The renaming loop of `Delivery.download` (links.py lines 534-540):
`ctr` is `dupes_counters`, mapping each duplicated name to its next
suffix number (initially 1 for every name). -/
def renameAux (dupes : List String) : (String → Nat) → List String → List String
  | _, [] => []
  | ctr, n :: rest =>
    if n ∈ dupes then
      (n ++ "_" ++ toString (ctr n)) ::
        renameAux dupes (fun x => if x = n then ctr n + 1 else ctr x) rest
    else
      n :: renameAux dupes ctr rest

/-- The name disambiguation of `Delivery.download` (links.py lines 530-540)
over the sibling names in first-seen document order. -/
def deliveryRename (ns : List String) : List String :=
  renameAux (dupesOf ns) (fun _ => 1) ns

/-- The sibling names a Delivery page produces before disambiguation:
`os.path.splitext(container.text)[0]` for each `a[target="_blank"]`
container (links.py line 522). -/
def deliveryNames (containerTexts : List String) : List String :=
  containerTexts.map splitextBase

/-! ### Worker dispatch (`_threading.run`) -/

/-- The exception kinds relevant to the dispatch boundary. -/
inductive PyExc
  | fileNotFoundError
  | downloaderError
  | runtimeError
  | typeError
  | notImplementedError
deriving DecidableEq

/-- A work unit as dispatched by `run`: a Link whose `download()` either
returns or raises, a Subject whose `find_links()` either returns or raises,
or the `None` sentinel. -/
inductive WorkUnit
  | link (name url : String) (download : Except PyExc Unit)
  | subject (name : String) (findLinks : Except PyExc Unit)
  | sentinel

/-- `run` (\_threading.py lines 12-36): the worker dispatch boundary.  The
result is the list of log lines emitted when the unit's processing is
contained, or `Except.error e` when the exception `e` escapes `run` (only
`FileNotFoundError` and `DownloaderError` are caught for a Link, only
`DownloaderError` for a Subject). -/
def run : WorkUnit → Except PyExc (List String)
  | .link n u d =>
    match d with
    | .ok _ => .ok ["Completed work of Link " ++ n]
    | .error .fileNotFoundError =>
      .ok ["FileNotFoundError in url " ++ u, "Completed work of Link " ++ n]
    | .error .downloaderError =>
      .ok ["DownloaderError in url " ++ u, "Completed work of Link " ++ n]
    | .error e => .error e
  | .subject n f =>
    match f with
    | .ok _ => .ok ["Completed work of Subject " ++ n]
    | .error .downloaderError =>
      .ok ["DownloaderError in subject " ++ n, "Completed work of Subject " ++ n]
    | .error e => .error e
  | .sentinel => .ok ["Closing thread, received None"]

/-! ### Concrete fixtures used by witnesses and counterexamples -/

/-- a response with no `Content-Length` header and a 7-byte body. -/
def respLen7 : Response :=
  { status := 200, contentLength := none, content := [0, 1, 2, 3, 4, 5, 6],
    contentType := none, location := none, cdFilename := none }

/-- a response whose `Content-Length` header (10) differs from its 7-byte
body. -/
def respHdr10 : Response :=
  { status := 200, contentLength := some 10, content := [0, 1, 2, 3, 4, 5, 6],
    contentType := none, location := none, cdFilename := none }

/-- the empty run state: nothing cached, written or logged. -/
def emptyDedup : DedupState := { cache := [], fs := [], downloads := [] }

/-- a state whose cache already maps `"d/f"` to length 5. -/
def cacheF5 : DedupState := { cache := [("d/f", 5)], fs := [], downloads := [] }

/-- a state whose cache already maps `"f"` to length 3. -/
def cacheF3 : DedupState := { cache := [("f", 3)], fs := [], downloads := [] }

/-- a 301 redirect whose body is typed `application/pdf`. -/
def respPdf301 : Response :=
  { status := 301, contentLength := none, content := [],
    contentType := some "application/pdf", location := some "http://next",
    cdFilename := none }

/-- a status-600 response with an unrecognized content type. -/
def respFoo600 : Response :=
  { status := 600, contentLength := none, content := [],
    contentType := some "application/foo", location := some "L",
    cdFilename := none }

/-- a 301 response with an unrecognized content type. -/
def respFoo301 : Response :=
  { status := 301, contentLength := none, content := [],
    contentType := some "application/foo", location := some "L",
    cdFilename := none }

/-- a 200 response carrying no `Content-Type` header. -/
def respNoCT200 : Response :=
  { status := 200, contentLength := none, content := [1],
    contentType := none, location := none, cdFilename := none }

/-- a response whose `Content-Disposition` header yields `"doc.PDF"`. -/
def respCD : Response :=
  { status := 200, contentLength := none, content := [1],
    contentType := none, location := none, cdFilename := some "doc.PDF" }

/-- a link whose `filepath` is already resolved. -/
def linkWithPath : LinkState :=
  { name := "n", url := "u", subjectFolder := "S", subfolders := [],
    filepath := some "/root/S/n.pdf", response := none }

/-- a link with neither `filepath` nor a response. -/
def linkNoResp : LinkState :=
  { name := "n", url := "u", subjectFolder := "S", subfolders := [],
    filepath := none, response := none }

/-- a link with a response made but `filepath` not yet resolved. -/
def linkReady : LinkState :=
  { name := "n", url := "http://a/b.pdf", subjectFolder := "S", subfolders := [],
    filepath := none, response := some respLen7 }

/-- a forum page with one topic, two linked attachments and one inline
image. -/
def forumPageEx : ForumPage :=
  { topics := [("Topic 1", "http://c/mod/forum/discuss.php?d=9")],
    attachments := [⟨"notes.pdf", some "http://c/pluginfile/notes.pdf"⟩,
                    ⟨"sheet.xls", some "http://c/pluginfile/sheet.xls"⟩],
    imageContainers := [[⟨none, "http://c/img/a.png"⟩]] }

end VCD

namespace VCD

/-! ### Helper lemmas -/

theorem lookup_setAL {α : Type} (l : List (String × α)) (k : String) (v : α) :
    (setAL l k v).lookup k = some v := by
  induction l with
  | nil => simp [setAL, List.lookup]
  | cons p rest ih =>
    obtain ⟨k0, v0⟩ := p
    by_cases h : k0 = k
    · simp [setAL, h, List.lookup]
    · have h2 : (k == k0) = false := by
        simp [beq_eq_false_iff_ne]
        exact fun he => h he.symm
      simp [setAL, h, List.lookup, h2, ih]

theorem get_ext_some (r : Response) (url n : String) (h : r.cdFilename = some n) :
    get_ext_from_response r url = filename_to_ext n := by
  unfold get_ext_from_response
  rw [h]

theorem get_ext_none (r : Response) (url : String) (h : r.cdFilename = none) :
    get_ext_from_response r url =
      (if filename_to_ext (pyBasename url) = "" then "ukn"
       else filename_to_ext (pyBasename url)) := by
  unfold get_ext_from_response
  rw [h]

/-! ### C1 — save of an already-cached path with a different length -/

/-- C1 (amended): when `filepath` is a cache key whose cached length `L`
differs from the response's authoritative length and the write succeeds,
`save_response_content` writes the bytes, reports an update and appends a
download record, but leaves the cache untouched: afterwards the cache still
maps the path to the old length `L`, not to the new length. -/
theorem save_update_keeps_old_cache_entry
    (fp subj : String) (r : Response) (s : DedupState) (L : Nat)
    (hl : s.cache.lookup fp = some L) (hne : L ≠ get_header_length r) :
    save_response_content fp subj r true s =
      ({ s with fs := setAL s.fs fp r.content,
                downloads := s.downloads ++ [(subj, pyBasename fp)] },
       .updated) ∧
    (save_response_content fp subj r true s).1.cache.lookup fp = some L := by
  constructor
  · unfold save_response_content
    rw [hl]
    simp [hne]
  · unfold save_response_content
    rw [hl]
    simp [hne, hl]

/-- C1 witness: the amended theorem applied at a concrete state whose cache
maps `"d/f"` to 5 while the response has authoritative length 7. -/
theorem save_update_keeps_old_cache_entry_witness :
    save_response_content "d/f" "Subj" respLen7 true cacheF5 =
      ({ cacheF5 with fs := setAL cacheF5.fs "d/f" respLen7.content,
                      downloads := cacheF5.downloads ++ [("Subj", pyBasename "d/f")] },
       .updated) ∧
    (save_response_content "d/f" "Subj" respLen7 true cacheF5).1.cache.lookup "d/f" = some 5 :=
  save_update_keeps_old_cache_entry "d/f" "Subj" respLen7 cacheF5 5 (by decide) (by decide)

/-- C1 counterexample: after saving `"d/f"` (cached length 5) with a
response of authoritative length 7, the cache still maps `"d/f"` to 5 — the
claim's "afterwards the cache maps the path to the new length" is false. -/
theorem save_update_cache_new_length_cex :
    get_header_length respLen7 = 7 ∧
    (save_response_content "d/f" "Subj" respLen7 true cacheF5).2 = .updated ∧
    (save_response_content "d/f" "Subj" respLen7 true cacheF5).1.cache.lookup "d/f"
      ≠ some (get_header_length respLen7) := by
  refine ⟨rfl, rfl, ?_⟩
  decide

/-! ### C9 — cache entry on a failed first write -/

/-- C9 (amended): for a previously unknown path the cache entry is created
when the save is attempted, before the write: when the write fails with a
permission error (caught and non-fatal) the cache afterwards maps the path
to the response's byte count even though nothing was written and no
download record was appended. -/
theorem save_permission_error_still_caches
    (fp subj : String) (r : Response) (s : DedupState)
    (hl : s.cache.lookup fp = none) :
    (save_response_content fp subj r false s).1.cache.lookup fp = some r.content.length ∧
    (save_response_content fp subj r false s).1.fs = s.fs ∧
    (save_response_content fp subj r false s).1.downloads = s.downloads ∧
    (save_response_content fp subj r false s).2 = .newFile := by
  unfold save_response_content
  rw [hl]
  simpa using lookup_setAL s.cache fp r.content.length

/-- C9 witness: the amended theorem at the empty state and path `"f"`. -/
theorem save_permission_error_still_caches_witness :
    (save_response_content "f" "Subj" respLen7 false emptyDedup).1.cache.lookup "f"
      = some respLen7.content.length ∧
    (save_response_content "f" "Subj" respLen7 false emptyDedup).1.fs = emptyDedup.fs ∧
    (save_response_content "f" "Subj" respLen7 false emptyDedup).1.downloads
      = emptyDedup.downloads ∧
    (save_response_content "f" "Subj" respLen7 false emptyDedup).2 = .newFile :=
  save_permission_error_still_caches "f" "Subj" respLen7 emptyDedup rfl

/-- C9 counterexample: saving the previously unknown path `"f"` while the
write raises `PermissionError` leaves a cache entry for `"f"` (the claim
says the cache afterwards has no entry for that path) although no file was
written. -/
theorem save_permission_error_cache_entry_cex :
    (save_response_content "f" "Subj" respLen7 false emptyDedup).1.cache.lookup "f" ≠ none ∧
    (save_response_content "f" "Subj" respLen7 false emptyDedup).1.cache.lookup "f" = some 7 ∧
    (save_response_content "f" "Subj" respLen7 false emptyDedup).1.fs.lookup "f" = none := by
  refine ⟨?_, ?_, ?_⟩ <;> decide

/-! ### C5 — the worker dispatch boundary -/

/-- C5 (amended): the dispatch boundary `run` catches and logs exactly
`FileNotFoundError` and `DownloaderError` for a Link and `DownloaderError`
for a Subject, logging the unit's identity; every other exception
propagates out of `run`. -/
theorem run_dispatch_boundary (n u : String) :
    (∃ logs, run (.link n u (.error .fileNotFoundError)) = .ok logs ∧
      ("Completed work of Link " ++ n) ∈ logs) ∧
    (∃ logs, run (.link n u (.error .downloaderError)) = .ok logs ∧
      ("DownloaderError in url " ++ u) ∈ logs) ∧
    (∃ logs, run (.subject n (.error .downloaderError)) = .ok logs ∧
      ("DownloaderError in subject " ++ n) ∈ logs) ∧
    run (.link n u (.error .runtimeError)) = .error .runtimeError ∧
    run (.link n u (.error .typeError)) = .error .typeError ∧
    run (.link n u (.error .notImplementedError)) = .error .notImplementedError ∧
    run (.subject n (.error .fileNotFoundError)) = .error .fileNotFoundError ∧
    run (.subject n (.error .runtimeError)) = .error .runtimeError := by
  refine ⟨⟨_, rfl, ?_⟩, ⟨_, rfl, ?_⟩, ⟨_, rfl, ?_⟩, rfl, rfl, rfl, rfl, rfl⟩ <;> simp

/-- C5 counterexample: a Link whose download raises `RuntimeError` (as
`Forum.download` does for an unknown URL shape) propagates the exception
out of the dispatch function — the claim that any exception is caught at
the dispatch boundary is false. -/
theorem run_runtime_error_propagates_cex :
    run (.link "forum" "http://campus/x.php" (.error .runtimeError))
      = .error .runtimeError := rfl

/-! ### C10 — missing Content-Type raises TypeError -/

/-- C10: for a response whose status is not 404 and which carries no
`Content-Type` header, `Resource.download` hits a substring test against
Python `None` and raises `TypeError` — it never reaches the
"content not identified" drop branch. -/
theorem resource_none_content_type_raises
    (r : Response) (h404 : r.status ≠ 404) (hct : r.contentType = none) :
    resourceAction r = .typeErrorRaised := by
  unfold resourceAction
  rw [if_neg h404, hct]

/-- C10 witness: the theorem at a concrete 200 response without
`Content-Type`. -/
theorem resource_none_content_type_raises_witness :
    resourceAction respNoCT200 = .typeErrorRaised :=
  resource_none_content_type_raises respNoCT200 (by decide) rfl

/-! ### C2 — idempotent second save -/

/-- C2 (amended): a second `save_response_content` for the same path with
the same response is a no-op (no write, no download record, state
unchanged, reported unchanged) provided the path was not already a cache
key before the first save and the response's `Content-Length` header, when
present, equals its byte count — because the first save stores the byte
count in the cache while later saves compare the cached value against the
header length. -/
theorem save_second_time_noop
    (fp subj : String) (r : Response) (w1 w2 : Bool) (s : DedupState)
    (hnone : s.cache.lookup fp = none)
    (hcl : r.contentLength = none ∨ r.contentLength = some r.content.length) :
    save_response_content fp subj r w2 (save_response_content fp subj r w1 s).1 =
      ((save_response_content fp subj r w1 s).1, .unchanged) := by
  have hghl : get_header_length r = r.content.length := by
    rcases hcl with h | h <;> simp [get_header_length, h]
  have hlook : (save_response_content fp subj r w1 s).1.cache.lookup fp
      = some (get_header_length r) := by
    have hcache : (save_response_content fp subj r w1 s).1.cache
        = setAL s.cache fp r.content.length := by
      unfold save_response_content
      rw [hnone]
      cases w1 <;> simp
    rw [hcache, lookup_setAL, hghl]
  generalize (save_response_content fp subj r w1 s).1 = S1 at hlook ⊢
  unfold save_response_content
  rw [hlook]
  simp

/-- C2 witness: the amended theorem for path `"f"` saved twice from the
empty state with a header-less 7-byte response. -/
theorem save_second_time_noop_witness :
    save_response_content "f" "Subj" respLen7 true
        (save_response_content "f" "Subj" respLen7 true emptyDedup).1 =
      ((save_response_content "f" "Subj" respLen7 true emptyDedup).1, .unchanged) :=
  save_second_time_noop "f" "Subj" respLen7 true true emptyDedup rfl (Or.inl rfl)

/-- C2 counterexample: (a) a response whose `Content-Length` header (10)
differs from its byte count (7) is saved twice from the empty state: the
second save reports an update and appends a second download record;
(b) when the path was already cached with another length (3), the second
save again reports an update — in both cases the second save is not a
no-op. -/
theorem save_second_time_noop_cex :
    (save_response_content "f" "Subj" respHdr10 true
        (save_response_content "f" "Subj" respHdr10 true emptyDedup).1).2 = .updated ∧
    (save_response_content "f" "Subj" respHdr10 true
        (save_response_content "f" "Subj" respHdr10 true emptyDedup).1).1.downloads.length
      = 2 ∧
    (save_response_content "f" "Subj" respLen7 true
        (save_response_content "f" "Subj" respLen7 true cacheF3).1).2 = .updated := by
  refine ⟨?_, ?_, ?_⟩ <;> decide

/-! ### C7 — filepath resolved at most once -/

/-- C7: `autoset_filepath` is a no-op when `filepath` is already set (the
state, `filepath` included, is returned unchanged), raises `RuntimeError`
when called before any request has been made, and otherwise sets
`filepath`. -/
theorem autoset_filepath_at_most_once
    (root : String) (maxLen : Nat) (s : LinkState) :
    ((∃ p, s.filepath = some p) → autoset_filepath root maxLen s = .ok s) ∧
    (s.filepath = none → s.response = none →
      autoset_filepath root maxLen s = .error "Request not launched") ∧
    (s.filepath = none → ∀ r, s.response = some r →
      ∃ fp, autoset_filepath root maxLen s = .ok { s with filepath := some fp }) := by
  refine ⟨?_, ?_, ?_⟩
  · rintro ⟨p, hp⟩
    unfold autoset_filepath
    rw [hp]
  · intro h1 h2
    unfold autoset_filepath
    rw [h1, h2]
  · intro h1 r h2
    unfold autoset_filepath
    rw [h1, h2]
    exact ⟨_, rfl⟩

/-- C7 witness: the theorem at a link with `filepath` set (no-op), a link
with no response (error), and a link ready for resolution. -/
theorem autoset_filepath_at_most_once_witness :
    autoset_filepath "root" 255 linkWithPath = .ok linkWithPath ∧
    autoset_filepath "root" 255 linkNoResp = .error "Request not launched" ∧
    (∃ fp, autoset_filepath "root" 255 linkReady
      = .ok { linkReady with filepath := some fp }) :=
  ⟨(autoset_filepath_at_most_once "root" 255 linkWithPath).1 ⟨_, rfl⟩,
   (autoset_filepath_at_most_once "root" 255 linkNoResp).2.1 rfl rfl,
   (autoset_filepath_at_most_once "root" 255 linkReady).2.2 rfl respLen7 rfl⟩

/-! ### C8 — extension derivation -/

/-- C8: the saved filename's extension comes from the
`Content-Disposition`-style header's filename when that header is present,
otherwise from the URL's basename; a chosen name without a dot yields the
literal extension `"ukn"` (for a URL basename this also covers a falsy
empty extension via `or 'ukn'`). -/
theorem extension_derivation (r : Response) (url : String) :
    (∀ n, r.cdFilename = some n → get_ext_from_response r url = filename_to_ext n) ∧
    (∀ n, r.cdFilename = some n → n.toList.count '.' = 0 →
      get_ext_from_response r url = "ukn") ∧
    (r.cdFilename = none → ∀ e, filename_to_ext (pyBasename url) = e → e ≠ "" →
      get_ext_from_response r url = e) ∧
    (r.cdFilename = none → (pyBasename url).toList.count '.' = 0 →
      get_ext_from_response r url = "ukn") := by
  refine ⟨?_, ?_, ?_, ?_⟩
  · intro n hn
    exact get_ext_some r url n hn
  · intro n hn hdot
    rw [get_ext_some r url n hn]
    unfold filename_to_ext
    rw [if_pos hdot]
  · intro h e he hne
    rw [get_ext_none r url h, he, if_neg hne]
  · intro h hdot
    have hukn : filename_to_ext (pyBasename url) = "ukn" := by
      unfold filename_to_ext
      rw [if_pos hdot]
    rw [get_ext_none r url h, hukn]
    simp

/-- C8 witness: a header-supplied name `"doc.PDF"` gives its own extension,
a header-less response takes `"pdf"` from the URL basename `b.pdf`, and a
dotless URL basename gives `"ukn"`. -/
theorem extension_derivation_witness :
    get_ext_from_response respCD "http://a/x" = filename_to_ext "doc.PDF" ∧
    get_ext_from_response respLen7 "http://a/b.pdf" = "pdf" ∧
    get_ext_from_response respLen7 "http://a/b" = "ukn" :=
  ⟨(extension_derivation respCD "http://a/x").1 "doc.PDF" rfl,
   (extension_derivation respLen7 "http://a/b.pdf").2.2.1 rfl "pdf" (by decide) (by decide),
   (extension_derivation respLen7 "http://a/b").2.2.2 rfl (by decide)⟩

/-! ### C4 — Forum branch selection -/

theorem length_filterMap_of_isSome {α β : Type} (f : α → Option β) :
    ∀ l : List α, (∀ a ∈ l, (f a).isSome = true) → (l.filterMap f).length = l.length := by
  intro l
  induction l with
  | nil => intro _; rfl
  | cons a rest ih =>
    intro h
    obtain ⟨b, hb⟩ := Option.isSome_iff_exists.mp (h a (by simp))
    rw [List.filterMap_cons, hb]
    simp [ih (fun x hx => h x (by simp [hx]))]

/-- C4: `Forum.download` branches solely on the URL: a URL containing
`view.php` enqueues exactly one child Forum per listed topic; otherwise a
URL containing `discuss.php` enqueues one child Resource per link-bearing
attachment and one per inline image; any other URL raises `RuntimeError`
instead of silently dropping the item. -/
theorem forum_branch_selection (url : String) (page : ForumPage) :
    (hasSub url "view.php" = true →
      forumDownload url page
        = .ok (page.topics.map (fun t => .forumChild t.1 t.2)) ∧
      ∃ cs, forumDownload url page = .ok cs ∧ cs.length = page.topics.length) ∧
    (hasSub url "view.php" = false → hasSub url "discuss.php" = true →
      (∀ a ∈ page.attachments, (a.href).isSome = true) →
      ∃ cs, forumDownload url page = .ok cs ∧
        cs.length = page.attachments.length
          + (page.imageContainers.map List.length).sum) ∧
    (hasSub url "view.php" = false → hasSub url "discuss.php" = false →
      forumDownload url page = .error ("Unknown url for forum: " ++ url)) := by
  refine ⟨?_, ?_, ?_⟩
  · intro hv
    have he : forumDownload url page
        = .ok (page.topics.map (fun t => .forumChild t.1 t.2)) := by
      unfold forumDownload
      rw [if_pos hv]
    exact ⟨he, _, he, by simp⟩
  · intro hv hd hall
    have he : forumDownload url page
        = .ok ((page.attachments.filterMap (fun a =>
                  (a.href).map (fun h =>
                    ForumChild.resourceChild (splitextBase a.text) h)))
            ++ (page.imageContainers.map (fun cont => cont.map (fun im =>
                  ForumChild.resourceChild
                    (splitextBase (pyBasename (imageUrl im)))
                    (imageUrl im)))).flatten) := by
      unfold forumDownload
      rw [if_neg (by simp [hv]), if_pos hd]
    refine ⟨_, he, ?_⟩
    rw [List.length_append]
    have hA : (page.attachments.filterMap (fun a =>
        (a.href).map (fun h =>
          ForumChild.resourceChild (splitextBase a.text) h))).length
        = page.attachments.length := by
      refine length_filterMap_of_isSome _ _ (fun a ha => ?_)
      cases hh : a.href with
      | none =>
        have hcontra := hall a ha
        rw [hh] at hcontra
        simp at hcontra
      | some v => simp [hh]
    have hB : ((page.imageContainers.map (fun cont => cont.map (fun im =>
        ForumChild.resourceChild
          (splitextBase (pyBasename (imageUrl im)))
          (imageUrl im)))).flatten).length
        = (page.imageContainers.map List.length).sum := by
      rw [List.length_flatten, List.map_map]
      simp [Function.comp_def]
    rw [hA, hB]
  · intro hv hd
    unfold forumDownload
    rw [if_neg (by simp [hv]), if_neg (by simp [hd])]

/-- C4 witness: the theorem at a concrete forum page for a `view.php` URL
(one Forum per topic), a `discuss.php` URL (one Resource per attachment
and image), and an unrecognized URL (raises). -/
theorem forum_branch_selection_witness :
    (∃ cs, forumDownload "http://c/mod/forum/view.php?id=9" forumPageEx = .ok cs ∧
      cs.length = forumPageEx.topics.length) ∧
    (∃ cs, forumDownload "http://c/mod/forum/discuss.php?d=9" forumPageEx = .ok cs ∧
      cs.length = forumPageEx.attachments.length
        + (forumPageEx.imageContainers.map List.length).sum) ∧
    forumDownload "http://c/mod/forum/other.php" forumPageEx
      = .error ("Unknown url for forum: " ++ "http://c/mod/forum/other.php") :=
  ⟨((forum_branch_selection "http://c/mod/forum/view.php?id=9" forumPageEx).1
      (by decide)).2,
   (forum_branch_selection "http://c/mod/forum/discuss.php?d=9" forumPageEx).2.1
      (by decide) (by decide) (by decide),
   (forum_branch_selection "http://c/mod/forum/other.php" forumPageEx).2.2
      (by decide) (by decide)⟩

/-! ### C3 — Delivery duplicate-name disambiguation -/

theorem renameAux_length (dupes : List String) :
    ∀ (ns : List String) (ctr : String → Nat),
      (renameAux dupes ctr ns).length = ns.length := by
  intro ns
  induction ns with
  | nil => intro ctr; rfl
  | cons n rest ih =>
    intro ctr
    by_cases h : n ∈ dupes <;> simp [renameAux, h, ih]

theorem renameAux_getD (dupes : List String) :
    ∀ (ns : List String) (ctr : String → Nat) (i : Nat), i < ns.length →
      (renameAux dupes ctr ns).getD i "" =
        (if ns.getD i "" ∈ dupes
         then ns.getD i "" ++ "_"
           ++ toString (ctr (ns.getD i "") + (ns.take i).count (ns.getD i ""))
         else ns.getD i "") := by
  intro ns
  induction ns with
  | nil =>
    intro ctr i hi
    simp at hi
  | cons n rest ih =>
    intro ctr i hi
    cases i with
    | zero =>
      by_cases h : n ∈ dupes <;> simp [renameAux, h]
    | succ j =>
      have hj : j < rest.length := by simpa using hi
      have hgs : (n :: rest).getD (j + 1) "" = rest.getD j "" := by
        simp
      have hts : (n :: rest).take (j + 1) = n :: rest.take j := by
        simp [List.take_succ_cons]
      by_cases h : n ∈ dupes
      · have hL : (renameAux dupes ctr (n :: rest)).getD (j + 1) ""
            = (renameAux dupes (fun x => if x = n then ctr n + 1 else ctr x) rest).getD j "" := by
          simp [renameAux, h]
        rw [hL, ih _ j hj, hgs, hts]
        by_cases hxd : rest.getD j "" ∈ dupes
        · rw [if_pos hxd, if_pos hxd]
          by_cases hxn : rest.getD j "" = n
          · rw [if_pos hxn, hxn, List.count_cons_self]
            have harg : ctr n + 1 + (rest.take j).count n
                = ctr n + ((rest.take j).count n + 1) := by omega
            rw [harg]
          · rw [if_neg hxn, List.count_cons_of_ne hxn]
        · rw [if_neg hxd, if_neg hxd]
      · have hL : (renameAux dupes ctr (n :: rest)).getD (j + 1) ""
            = (renameAux dupes ctr rest).getD j "" := by
          simp [renameAux, h]
        rw [hL, ih _ j hj, hgs, hts]
        by_cases hxd : rest.getD j "" ∈ dupes
        · have hxn : rest.getD j "" ≠ n := fun he => h (he ▸ hxd)
          rw [if_pos hxd, if_pos hxd, List.count_cons_of_ne hxn]
        · rw [if_neg hxd, if_neg hxd]

theorem deliveryRename_getD (ns : List String) (i : Nat) (hi : i < ns.length) :
    (deliveryRename ns).getD i "" =
      (if 1 < ns.count (ns.getD i "")
       then ns.getD i "" ++ "_" ++ toString ((ns.take (i + 1)).count (ns.getD i ""))
       else ns.getD i "") := by
  have hmem : ns.getD i "" ∈ ns := by
    rw [List.getD_eq_getElem ns "" hi]
    exact List.getElem_mem hi
  have hdup : (ns.getD i "" ∈ dupesOf ns) ↔ 1 < ns.count (ns.getD i "") := by
    unfold dupesOf
    rw [List.mem_filter]
    constructor
    · intro hp
      simpa using hp.2
    · intro hc
      exact ⟨hmem, by simpa using hc⟩
  rw [deliveryRename, renameAux_getD (dupesOf ns) ns (fun _ => 1) i hi]
  by_cases hc : 1 < ns.count (ns.getD i "")
  · rw [if_pos (hdup.mpr hc), if_pos hc]
    have htake : ns.take (i + 1) = ns.take i ++ [ns.getD i ""] := by
      rw [List.take_succ, List.getElem?_eq_getElem hi, List.getD_eq_getElem ns "" hi]
      rfl
    rw [htake, List.count_append]
    have hone : ([ns.getD i ""] : List String).count (ns.getD i "") = 1 := by
      simp
    rw [hone]
    have harg : 1 + (ns.take i).count (ns.getD i "")
        = (ns.take i).count (ns.getD i "") + 1 := by omega
    rw [harg]
  · rw [if_neg (fun hh => hc (hdup.mp hh)), if_neg hc]

/-- C3: among the sibling attachment names of a Delivery page in first-seen
document order, a name occurring exactly once is left unchanged, and the
k-th occurrence of a name occurring more than once is renamed by appending
`_k` (the first occurrence gets `_1`); the sibling texts
`["a.pdf","a.pdf","b.pdf"]` (whose extensions are stripped on discovery and
re-derived at save time) give `["a_1","a_2","b"]`, hence filenames
`["a_1.pdf","a_2.pdf","b.pdf"]`; the renaming is a pure function of the
name list, so re-runs over the same page produce identical names. -/
theorem delivery_dedup_naming :
    (∀ (ns : List String) (i : Nat), i < ns.length →
      ((ns.count (ns.getD i "") = 1 → (deliveryRename ns).getD i "" = ns.getD i "") ∧
       (1 < ns.count (ns.getD i "") →
         (deliveryRename ns).getD i ""
           = ns.getD i "" ++ "_" ++ toString ((ns.take (i + 1)).count (ns.getD i ""))))) ∧
    (∀ ns : List String, (deliveryRename ns).length = ns.length) ∧
    deliveryRename (deliveryNames ["a.pdf", "a.pdf", "b.pdf"]) = ["a_1", "a_2", "b"] ∧
    (deliveryRename (deliveryNames ["a.pdf", "a.pdf", "b.pdf"])).map (fun n => n ++ ".pdf")
      = ["a_1.pdf", "a_2.pdf", "b.pdf"] := by
  refine ⟨?_, ?_, ?_, ?_⟩
  · intro ns i hi
    constructor
    · intro h1
      rw [deliveryRename_getD ns i hi, if_neg (by omega)]
    · intro h1
      rw [deliveryRename_getD ns i hi, if_pos h1]
  · intro ns
    exact renameAux_length (dupesOf ns) ns (fun _ => 1)
  · decide
  · decide

/-- C3 witness: the general part of the theorem applied at the concrete
sibling list `["x", "x"]`, index 0: the first of two equal names gets the
suffix `_1`. -/
theorem delivery_dedup_naming_witness :
    (deliveryRename ["x", "x"]).getD 0 ""
      = (["x", "x"] : List String).getD 0 "" ++ "_"
        ++ toString (((["x", "x"] : List String).take 1).count
             ((["x", "x"] : List String).getD 0 "")) :=
  (delivery_dedup_naming.1 ["x", "x"] 0 (by decide)).2 (by decide)

/-! ### C6 — redirect handling in Resource.download -/

/-- C6 (amended): `Resource.download` follows the `Location` header and
re-issues the request only when the response's `Content-Type` header is
present and matches none of the recognized content-type substrings, and
then exactly when `status % 300 < 100` — a condition every 3xx status
satisfies but which also admits statuses such as 600–699; a 3xx response
whose content type is recognized is saved or parsed instead of being
redirected. -/
theorem resource_redirect_condition (r : Response) (ct : String)
    (h404 : r.status ≠ 404) (hct : r.contentType = some ct)
    (hall : ctPatterns.all (fun p => !(hasSub ct p)) = true) :
    (resourceAction r = .redirect r.location ↔ r.status % 300 < 100) ∧
    (300 ≤ r.status → r.status ≤ 399 → resourceAction r = .redirect r.location) := by
  simp only [ctPatterns, List.all_cons, List.all_nil, Bool.and_eq_true,
    Bool.not_eq_true', and_true] at hall
  obtain ⟨h1, h2, h3, h4, h5, h6, h7, h8, h9, h10, h11, h12, h13, h14, h15,
    h16, h17, h18, h19⟩ := hall
  have hred : resourceAction r
      = (if r.status % 300 < 100 then RAction.redirect r.location
         else .unidentified) := by
    unfold resourceAction
    rw [if_neg h404, hct]
    simp [h1, h2, h3, h4, h5, h6, h7, h8, h9, h10, h11, h12, h13, h14, h15,
      h16, h17, h18, h19]
  constructor
  · rw [hred]
    by_cases hc : r.status % 300 < 100 <;> simp [hc]
  · intro ha hb
    rw [hred, if_pos (by omega)]

/-- C6 witness: a 301 response with unrecognized content type
`application/foo` is redirected to its `Location` header. -/
theorem resource_redirect_condition_witness :
    resourceAction respFoo301 = .redirect respFoo301.location :=
  (resource_redirect_condition respFoo301 "application/foo" (by decide) rfl
    (by decide)).2 (by decide) (by decide)

/-- C6 counterexample: a 301 response typed `application/pdf` is saved, not
redirected (so "for every 3xx the URL is updated and the request
re-issued" is false), while a status-600 response with an unrecognized
content type is redirected (so "for no response outside the 3xx range" is
also false). -/
theorem resource_redirect_claim_cex :
    respPdf301.status = 301 ∧
    resourceAction respPdf301 = .save "pdf" ∧
    resourceAction respPdf301 ≠ .redirect respPdf301.location ∧
    respFoo600.status = 600 ∧
    resourceAction respFoo600 = .redirect (some "L") := by
  refine ⟨rfl, ?_, ?_, rfl, ?_⟩ <;> decide

end VCD
